import Mathlib

/-!
# Verification of the kiosk time-clock record store

Shallow embedding of the browser time-clock kiosk's record store, identity
resolver, event recorder, retention purge, sync effect and CSV export,
together with theorems settling the specification's claims about them.

Modelling conventions:
* ISO timestamps (`nowISO()` / `new Date(s).getTime()`) are modelled as epoch
  milliseconds (`Int`); the string round trip through `Date` is the identity
  on that value.
* `localStorage` content is modelled at the payload level: a stored document
  either parses as a JSON value or is garbage that `JSON.parse` rejects.
* SHA-256 digests are modelled by an abstract injective tagging function;
  no claim depends on properties of the digest beyond equality of inputs.
-/

/-- Employee lifecycle status: `"pending" | "active" | "disabled"`. -/
inductive EmpStatus where
  | pending
  | active
  | disabled
deriving DecidableEq, Repr

/-- Event type: `"clock-in" | "clock-out"`. -/
inductive PunchType where
  | clockIn
  | clockOut
deriving DecidableEq, Repr

/-- Identification method of the evidence descriptor. -/
inductive IdFactor where
  | employeeId
  | fingerprint
  | nfc
  | qr
deriving DecidableEq, Repr

/-- Presence-confirmation strength of the evidence descriptor. -/
inductive BioFactor where
  | strong
  | weak
  | simulated
deriving DecidableEq, Repr

/-- The `factors` field of an `EventRecord`. -/
structure Factors where
  identity : IdFactor
  biometric : BioFactor
deriving DecidableEq, Repr

/-- `Employee` record (interface `Employee` in the source). Optional fields
(`phone`, `address`, `profileSelfie`) are `Option`s: `none` models the field
being `undefined`/absent. -/
structure Employee where
  id : String
  orgId : String
  siteId : String
  employeeId : String
  firstName : String
  lastName : String
  phone : Option String
  address : Option String
  status : EmpStatus
  createdAt : String
  profileSelfie : Option String
deriving DecidableEq, Repr

/-- `EventRecord` (interface `EventRecord` in the source); `ts` is the event
timestamp in epoch milliseconds. -/
structure EventRecord where
  id : String
  orgId : String
  siteId : String
  deviceId : String
  employeeId : String
  type : PunchType
  ts : Int
  factors : Factors
  selfieDataUrl : Option String
  offlineSeq : Nat
  synced : Bool
deriving DecidableEq, Repr

/-- `DeviceSettings` (singleton device configuration). -/
structure DeviceSettings where
  enrolled : Bool
  orgId : String
  siteId : String
  deviceId : String
  online : Bool
  selfieRetentionWeeks : Nat
  requireSelfie : Bool
  requireStrongBiometric : Bool
  adminCodeHash : Option String
deriving DecidableEq, Repr

/-- The persisted aggregate document (interface `DB` in the source). -/
structure DB where
  employees : List Employee
  events : List EventRecord
  device : DeviceSettings
  pendingSeq : Nat
deriving DecidableEq, Repr

/-- `completePunch` (KioskView): the event-recording operation. Parameters
that the source draws from the ambient browser environment are explicit:
`employee` is the resolved employee state, `selfie` the captured image,
`newId` the fresh `uid()`, `now` the current time (`nowISO()`). Returns the
updated aggregate; on any guard failure the aggregate is returned unchanged
(the source `return`s without calling `save`). -/
def completePunch (db : DB) (employee : Option Employee) (punchType : PunchType)
    (selfie : Option String) (newId : String) (now : Int) : DB :=
  if !db.device.enrolled then db
  else
    match employee with
    | none => db
    | some emp =>
      if emp.status ≠ EmpStatus.active then db
      else
        let seq := db.pendingSeq
        let ev : EventRecord :=
          { id := newId
            orgId := db.device.orgId
            siteId := db.device.siteId
            deviceId := db.device.deviceId
            employeeId := emp.id
            type := punchType
            ts := now
            factors :=
              { identity := IdFactor.employeeId
                biometric := if db.device.requireStrongBiometric then .simulated else .weak }
            selfieDataUrl := if db.device.requireSelfie then selfie else none
            offlineSeq := seq
            synced := db.device.online }
        { db with events := db.events ++ [ev], pendingSeq := seq + 1 }

/-- C1: for an enrolled device and an `active` employee, `completePunch`
appends exactly one `EventRecord` at the end of `events`, with `offlineSeq`
equal to the pre-increment `pendingSeq`, `synced` equal to the device's
online flag and an evidence image only if `requireSelfie` is set, and
increments `pendingSeq` by exactly 1. -/
theorem completePunch_active_appends (db : DB) (emp : Employee) (punchType : PunchType)
    (selfie : Option String) (newId : String) (now : Int)
    (henr : db.device.enrolled = true) (hact : emp.status = EmpStatus.active) :
    ∃ ev : EventRecord,
      (completePunch db (some emp) punchType selfie newId now).events = db.events ++ [ev] ∧
      (completePunch db (some emp) punchType selfie newId now).pendingSeq = db.pendingSeq + 1 ∧
      ev.offlineSeq = db.pendingSeq ∧
      ev.synced = db.device.online ∧
      ev.selfieDataUrl = (if db.device.requireSelfie then selfie else none) := by
  refine ⟨{ id := newId, orgId := db.device.orgId, siteId := db.device.siteId,
            deviceId := db.device.deviceId, employeeId := emp.id, type := punchType,
            ts := now,
            factors := { identity := IdFactor.employeeId,
                         biometric := if db.device.requireStrongBiometric then .simulated
                                      else .weak },
            selfieDataUrl := if db.device.requireSelfie then selfie else none,
            offlineSeq := db.pendingSeq, synced := db.device.online },
          ?_, ?_, rfl, rfl, rfl⟩ <;>
    simp [completePunch, henr, hact]

/-- Witness for `completePunch_active_appends` at a concrete aggregate. -/
theorem completePunch_active_appends_witness :
    ∃ ev : EventRecord,
      (completePunch
        { employees := [{ id := "i1", orgId := "o", siteId := "s", employeeId := "E1",
                          firstName := "Jane", lastName := "Doe", phone := none,
                          address := none, status := EmpStatus.active, createdAt := "t0",
                          profileSelfie := none }]
          events := []
          device := { enrolled := true, orgId := "o", siteId := "s", deviceId := "d",
                      online := true, selfieRetentionWeeks := 4, requireSelfie := true,
                      requireStrongBiometric := true, adminCodeHash := none }
          pendingSeq := 1 }
        (some { id := "i1", orgId := "o", siteId := "s", employeeId := "E1",
                firstName := "Jane", lastName := "Doe", phone := none,
                address := none, status := EmpStatus.active, createdAt := "t0",
                profileSelfie := none })
        PunchType.clockIn none "ev1" 0).events =
        ({ employees := [{ id := "i1", orgId := "o", siteId := "s", employeeId := "E1",
                           firstName := "Jane", lastName := "Doe", phone := none,
                           address := none, status := EmpStatus.active, createdAt := "t0",
                           profileSelfie := none }]
           events := []
           device := { enrolled := true, orgId := "o", siteId := "s", deviceId := "d",
                       online := true, selfieRetentionWeeks := 4, requireSelfie := true,
                       requireStrongBiometric := true, adminCodeHash := none }
           pendingSeq := 1 } : DB).events ++ [ev] ∧ ev.offlineSeq = 1 := by
  obtain ⟨ev, h1, _, h3, _, _⟩ :=
    completePunch_active_appends
      { employees := [{ id := "i1", orgId := "o", siteId := "s", employeeId := "E1",
                        firstName := "Jane", lastName := "Doe", phone := none,
                        address := none, status := EmpStatus.active, createdAt := "t0",
                        profileSelfie := none }]
        events := []
        device := { enrolled := true, orgId := "o", siteId := "s", deviceId := "d",
                    online := true, selfieRetentionWeeks := 4, requireSelfie := true,
                    requireStrongBiometric := true, adminCodeHash := none }
        pendingSeq := 1 }
      { id := "i1", orgId := "o", siteId := "s", employeeId := "E1",
        firstName := "Jane", lastName := "Doe", phone := none,
        address := none, status := EmpStatus.active, createdAt := "t0",
        profileSelfie := none }
      PunchType.clockIn none "ev1" 0 rfl rfl
  exact ⟨ev, h1, h3⟩

/-- C2: when the device is not enrolled, or there is no resolved employee,
or the employee's status is not `active`, `completePunch` leaves the
aggregate unchanged. -/
theorem completePunch_blocked_unchanged (db : DB) (employee : Option Employee)
    (punchType : PunchType) (selfie : Option String) (newId : String) (now : Int)
    (h : db.device.enrolled = false ∨ employee = none ∨
         ∃ emp, employee = some emp ∧ emp.status ≠ EmpStatus.active) :
    completePunch db employee punchType selfie newId now = db := by
  rcases h with h | h | ⟨emp, rfl, hs⟩
  · simp [completePunch, h]
  · subst h; simp [completePunch]
  · simp [completePunch, hs]

/-- Witness for `completePunch_blocked_unchanged`: a pending employee on an
enrolled device records nothing. -/
theorem completePunch_blocked_unchanged_witness :
    completePunch
      { employees := []
        events := []
        device := { enrolled := true, orgId := "o", siteId := "s", deviceId := "d",
                    online := true, selfieRetentionWeeks := 4, requireSelfie := true,
                    requireStrongBiometric := true, adminCodeHash := none }
        pendingSeq := 1 }
      (some { id := "i2", orgId := "o", siteId := "s", employeeId := "E2",
              firstName := "Ann", lastName := "Lee", phone := none,
              address := none, status := EmpStatus.pending, createdAt := "t0",
              profileSelfie := none })
      PunchType.clockOut none "ev2" 0 =
      { employees := []
        events := []
        device := { enrolled := true, orgId := "o", siteId := "s", deviceId := "d",
                    online := true, selfieRetentionWeeks := 4, requireSelfie := true,
                    requireStrongBiometric := true, adminCodeHash := none }
        pendingSeq := 1 } :=
  completePunch_blocked_unchanged _ _ _ _ _ _
    (Or.inr (Or.inr ⟨_, rfl, by decide⟩))

/-- `approve` (ManagerView): sets the status of the employee with the given
internal id to `active`; all other employees are unchanged. -/
def approve (db : DB) (id : String) : DB :=
  { db with
    employees := db.employees.map fun e =>
      if e.id = id then { e with status := EmpStatus.active } else e }

/-- `disable` (ManagerView): sets the status of the employee with the given
internal id to `disabled`. -/
def disable (db : DB) (id : String) : DB :=
  { db with
    employees := db.employees.map fun e =>
      if e.id = id then { e with status := EmpStatus.disabled } else e }

/-- The ManagerView approvals list: employees whose status is not `active`
(each rendered with an Approve and a Disable button). -/
def approvalList (db : DB) : List Employee :=
  db.employees.filter fun e => decide (e.status ≠ EmpStatus.active)

/-- A sample device configuration used for concrete instances. -/
def sampleDevice : DeviceSettings :=
  { enrolled := true, orgId := "o", siteId := "s", deviceId := "d", online := true,
    selfieRetentionWeeks := 4, requireSelfie := true, requireStrongBiometric := true,
    adminCodeHash := none }

/-- A sample disabled employee. -/
def empDisabled : Employee :=
  { id := "i9", orgId := "o", siteId := "s", employeeId := "E9",
    firstName := "Bob", lastName := "Ray", phone := none, address := none,
    status := EmpStatus.disabled, createdAt := "t0", profileSelfie := none }

/-- C3 counterexample: `approve` applied to a disabled employee's id turns
that employee `active` — a `disabled → active` re-activation path does exist,
contrary to the claim. -/
theorem approve_disabled_counterexample :
    empDisabled.status = EmpStatus.disabled ∧
    (approve { employees := [empDisabled], events := [], device := sampleDevice,
               pendingSeq := 1 } "i9").employees.map Employee.status = [EmpStatus.active] := by
  constructor
  · rfl
  · rfl

/-- C3 amended: `approve` sets the matched employee's status to `active`
regardless of its prior status; in particular a disabled employee (still shown
in the approvals list, which filters on status ≠ `active`) is re-activated by
the manager approve operation. -/
theorem approve_reactivation_path (db : DB) (id : String) (e : Employee)
    (he : e ∈ db.employees) (hid : e.id = id) (hst : e.status = EmpStatus.disabled) :
    e ∈ approvalList db ∧
    { e with status := EmpStatus.active } ∈ (approve db id).employees := by
  constructor
  · simp [approvalList, List.mem_filter, he, hst]
  · simp only [approve, List.mem_map]
    exact ⟨e, he, by simp [hid]⟩

/-- Witness for `approve_reactivation_path` at a concrete aggregate. -/
theorem approve_reactivation_path_witness :
    empDisabled ∈ approvalList { employees := [empDisabled], events := [],
                                 device := sampleDevice, pendingSeq := 1 } ∧
    { empDisabled with status := EmpStatus.active } ∈
      (approve { employees := [empDisabled], events := [], device := sampleDevice,
                 pendingSeq := 1 } "i9").employees :=
  approve_reactivation_path _ "i9" empDisabled (by simp) rfl rfl

/-- JS `String.prototype.toLowerCase` on one character (ASCII range; the
codes appearing in this program are ASCII). -/
def jsToLowerChar (c : Char) : Char :=
  if 'A' ≤ c ∧ c ≤ 'Z' then Char.ofNat (c.toNat + 32) else c

/-- JS `String.prototype.toLowerCase`. -/
def jsToLower (s : String) : String := ⟨s.data.map jsToLowerChar⟩

/-- JS whitespace as removed by `String.prototype.trim`. -/
def jsIsWhitespace (c : Char) : Bool := c = ' ' || c = '\t' || c = '\n' || c = '\r'

/-- JS `String.prototype.trim`: strip leading and trailing whitespace. -/
def jsTrim (s : String) : String :=
  ⟨((s.data.dropWhile jsIsWhitespace).reverse.dropWhile jsIsWhitespace).reverse⟩

/-- `resolveEmployee` (KioskView) / the identical lookup in `tryResolve`
(PunchFlow): first employee in list order scoped to the device's org and site
whose stored code, lowercased, equals the typed code trimmed and lowercased.
Only the typed code is trimmed. -/
def resolveEmployee (db : DB) (empId : String) : Option Employee :=
  db.employees.find? fun x =>
    x.orgId == db.device.orgId && x.siteId == db.device.siteId &&
      jsToLower x.employeeId == jsToLower (jsTrim empId)

/-- The claim's match relation, following its words: org and site match the
device and the stored code equals the typed code up to surrounding whitespace
and letter case (both sides trimmed and lowercased). -/
def specCodeMatch (device : DeviceSettings) (typed : String) (x : Employee) : Prop :=
  x.orgId = device.orgId ∧ x.siteId = device.siteId ∧
    jsToLower (jsTrim x.employeeId) = jsToLower (jsTrim typed)

/-- An employee whose stored code carries surrounding whitespace. -/
def empWs : Employee :=
  { id := "i5", orgId := "o", siteId := "s", employeeId := " e123 ",
    firstName := "Pat", lastName := "Kim", phone := none, address := none,
    status := EmpStatus.active, createdAt := "t0", profileSelfie := none }

/-- C7 counterexample: with a stored code `" e123 "` (surrounding whitespace
in the store) and typed code `"e123"`, the claim's match relation holds, yet
resolution reports not-found — the stored side is never trimmed. -/
theorem resolve_untrimmed_store_counterexample :
    resolveEmployee { employees := [empWs], events := [], device := sampleDevice,
                      pendingSeq := 1 } "e123" = none ∧
    specCodeMatch sampleDevice "e123" empWs := by
  exact ⟨by decide, rfl, rfl, by decide⟩

/-- The amended resolution contract, written from the amended claim's words:
scan the employees in order and return the first one whose org and site match
the device and whose stored code, lowercased exactly as stored, equals the
typed code after trimming and lowercasing; report not-found otherwise. -/
def resolveSpecAmended (device : DeviceSettings) (typed : String) :
    List Employee → Option Employee
  | [] => none
  | x :: rest =>
    if x.orgId = device.orgId ∧ x.siteId = device.siteId ∧
        jsToLower x.employeeId = jsToLower (jsTrim typed) then some x
    else resolveSpecAmended device typed rest

theorem resolveEmployee_eq_amended_aux (device : DeviceSettings) (typed : String)
    (l : List Employee) :
    (l.find? fun x =>
        x.orgId == device.orgId && x.siteId == device.siteId &&
          jsToLower x.employeeId == jsToLower (jsTrim typed)) =
      resolveSpecAmended device typed l := by
  induction l with
  | nil => rfl
  | cons x rest ih =>
    by_cases h : x.orgId = device.orgId ∧ x.siteId = device.siteId ∧
        jsToLower x.employeeId = jsToLower (jsTrim typed)
    · rw [List.find?_cons_of_pos, resolveSpecAmended, if_pos h]
      simp [h.1, h.2.1, h.2.2]
    · rw [List.find?_cons_of_neg, resolveSpecAmended, if_neg h, ih]
      simp only [Bool.and_eq_true, beq_iff_eq]
      intro hcon
      exact h ⟨hcon.1.1, hcon.1.2, hcon.2⟩

/-- Resolution depends on the typed code only through its trimmed, lowercased
form. -/
theorem resolveEmployee_trim_toLower_congr (db : DB) (c₁ c₂ : String)
    (h : jsToLower (jsTrim c₁) = jsToLower (jsTrim c₂)) :
    resolveEmployee db c₁ = resolveEmployee db c₂ := by
  simp [resolveEmployee, h]

/-- C7 amended: resolution is scoped to the device's org and site; only the
typed code is trimmed and both sides are lowercased, first match wins and
not-found is reported otherwise; in particular the typed codes `"E123"`,
`" e123 "`, `"E123 "` all resolve identically on every aggregate. -/
theorem resolveEmployee_amended (db : DB) (c : String) :
    resolveEmployee db c = resolveSpecAmended db.device c db.employees ∧
    resolveEmployee db "E123" = resolveEmployee db " e123 " ∧
    resolveEmployee db "E123 " = resolveEmployee db "E123" := by
  refine ⟨resolveEmployee_eq_amended_aux db.device c db.employees, ?_, ?_⟩
  · exact resolveEmployee_trim_toLower_congr db _ _ rfl
  · exact resolveEmployee_trim_toLower_congr db _ _ rfl

/-- The App-level sync effect (the `useEffect` keyed on `db.device.online`):
when the simulated online flag is set, every unsynced event is marked synced
and the aggregate is saved if anything changed; offline, nothing happens. -/
def syncEffect (db : DB) : DB :=
  if !db.device.online then db
  else
    { db with
      events := db.events.map fun e =>
        if !e.synced then { e with synced := true } else e }

theorem EventRecord.setSynced_self (e : EventRecord) (h : e.synced = true) :
    { e with synced := true } = e := by
  cases e
  simp_all

/-- C8: while the simulated online flag is true, the sync effect sets
`synced := true` on every event and changes nothing else — each event keeps
all its other fields, and the employees list, device settings and
`pendingSeq` are untouched. -/
theorem syncEffect_marks_all_synced (db : DB) (h : db.device.online = true) :
    (syncEffect db).events = db.events.map (fun e => { e with synced := true }) ∧
    (∀ e ∈ (syncEffect db).events, e.synced = true) ∧
    (syncEffect db).employees = db.employees ∧
    (syncEffect db).device = db.device ∧
    (syncEffect db).pendingSeq = db.pendingSeq := by
  have hev : (syncEffect db).events = db.events.map (fun e => { e with synced := true }) := by
    simp only [syncEffect, h, Bool.not_true, Bool.false_eq_true, if_false]
    refine List.map_congr_left fun e _ => ?_
    by_cases hs : e.synced
    · simp [hs, EventRecord.setSynced_self e hs]
    · simp [hs]
  refine ⟨hev, ?_, ?_, ?_, ?_⟩
  · intro e he
    rw [hev] at he
    obtain ⟨e₀, _, rfl⟩ := List.mem_map.mp he
    rfl
  all_goals simp [syncEffect, h]

/-- Witness for `syncEffect_marks_all_synced` at a concrete aggregate holding
one unsynced and one synced event. -/
theorem syncEffect_marks_all_synced_witness :
    (∀ e ∈ (syncEffect
        { employees := [], device := sampleDevice, pendingSeq := 3,
          events := [
            { id := "v1", orgId := "o", siteId := "s", deviceId := "d", employeeId := "i1",
              type := PunchType.clockIn, ts := 0,
              factors := { identity := IdFactor.employeeId, biometric := BioFactor.simulated },
              selfieDataUrl := none, offlineSeq := 1, synced := false },
            { id := "v2", orgId := "o", siteId := "s", deviceId := "d", employeeId := "i1",
              type := PunchType.clockOut, ts := 5,
              factors := { identity := IdFactor.employeeId, biometric := BioFactor.simulated },
              selfieDataUrl := none, offlineSeq := 2, synced := true }] }).events,
      e.synced = true) ∧
    (syncEffect
        { employees := [], device := sampleDevice, pendingSeq := 3,
          events := [
            { id := "v1", orgId := "o", siteId := "s", deviceId := "d", employeeId := "i1",
              type := PunchType.clockIn, ts := 0,
              factors := { identity := IdFactor.employeeId, biometric := BioFactor.simulated },
              selfieDataUrl := none, offlineSeq := 1, synced := false },
            { id := "v2", orgId := "o", siteId := "s", deviceId := "d", employeeId := "i1",
              type := PunchType.clockOut, ts := 5,
              factors := { identity := IdFactor.employeeId, biometric := BioFactor.simulated },
              selfieDataUrl := none, offlineSeq := 2, synced := true }] }).pendingSeq = 3 :=
  ⟨(syncEffect_marks_all_synced _ rfl).2.1,
   (syncEffect_marks_all_synced _ rfl).2.2.2.2⟩

/-- `purgeOldSelfies`: clears the evidence image of every event whose image
is present and whose timestamp is strictly older than
`now - selfieRetentionWeeks * 7 * 24 * 60 * 60 * 1000`; the `Bool` component
records whether any event changed, i.e. whether `saveDB` was called. -/
def purgeOldSelfies (db : DB) (now : Int) : DB × Bool :=
  let cutoff := now - (db.device.selfieRetentionWeeks : Int) * 7 * 24 * 60 * 60 * 1000
  let changed := db.events.any fun e => e.selfieDataUrl.isSome && decide (e.ts < cutoff)
  ({ db with
     events := db.events.map fun e =>
       if e.selfieDataUrl.isSome && decide (e.ts < cutoff) then
         { e with selfieDataUrl := none }
       else e },
   changed)

/-- A sample event carrying an evidence image, dated at epoch 0. -/
def evWithSelfie : EventRecord :=
  { id := "v9", orgId := "o", siteId := "s", deviceId := "d", employeeId := "i1",
    type := PunchType.clockIn, ts := 0,
    factors := { identity := IdFactor.employeeId, biometric := BioFactor.simulated },
    selfieDataUrl := some "data:image/jpeg;base64,x", offlineSeq := 1, synced := true }

/-- C6 counterexample: with retention 0 weeks and an event whose image exists
and whose timestamp equals the current time, the purge clears nothing and
does not persist — the cutoff comparison is strict (`ts < now`), so an image
dated exactly `now` survives. -/
theorem purge_retention_zero_boundary_counterexample :
    (purgeOldSelfies
        { employees := [], events := [evWithSelfie],
          device := { sampleDevice with selfieRetentionWeeks := 0 },
          pendingSeq := 1 } 0) =
      ({ employees := [], events := [evWithSelfie],
         device := { sampleDevice with selfieRetentionWeeks := 0 },
         pendingSeq := 1 }, false) ∧
    evWithSelfie.ts = 0 ∧ evWithSelfie.selfieDataUrl.isSome = true := by
  refine ⟨?_, rfl, rfl⟩
  decide

/-- C6 amended: the purge clears the image of exactly those events whose
image exists and whose timestamp is strictly older than
`now - retentionWeeks*7 days` (an image dated exactly at the cutoff is kept),
leaves every other event and all other aggregate fields unchanged, and
persists if and only if at least one event matched. -/
theorem purge_clears_strictly_older (db : DB) (now : Int) :
    List.Forall₂
      (fun orig new =>
        (orig.selfieDataUrl.isSome = true ∧
            orig.ts < now - (db.device.selfieRetentionWeeks : Int) * 7 * 24 * 60 * 60 * 1000 →
          new = { orig with selfieDataUrl := none }) ∧
        (¬(orig.selfieDataUrl.isSome = true ∧
            orig.ts < now - (db.device.selfieRetentionWeeks : Int) * 7 * 24 * 60 * 60 * 1000) →
          new = orig))
      db.events (purgeOldSelfies db now).1.events ∧
    ((purgeOldSelfies db now).2 = true ↔
      ∃ e ∈ db.events, e.selfieDataUrl.isSome = true ∧
        e.ts < now - (db.device.selfieRetentionWeeks : Int) * 7 * 24 * 60 * 60 * 1000) ∧
    (purgeOldSelfies db now).1.employees = db.employees ∧
    (purgeOldSelfies db now).1.device = db.device ∧
    (purgeOldSelfies db now).1.pendingSeq = db.pendingSeq := by
  refine ⟨?_, ?_, rfl, rfl, rfl⟩
  · simp only [purgeOldSelfies]
    rw [List.forall₂_map_right_iff]
    rw [List.forall₂_same]
    intro e _
    constructor
    · intro hm
      rw [if_pos]
      simp [hm.1, hm.2]
    · intro hm
      rw [if_neg]
      simpa using fun h1 h2 => hm ⟨h1, h2⟩
  · simp [purgeOldSelfies, List.any_eq_true]

/-- JSON values, as produced by `JSON.parse`. The numbers persisted by this
program are integers (sequence numbers, retention weeks, timestamps). -/
inductive Json where
  | null
  | bool (b : Bool)
  | num (n : Int)
  | str (s : String)
  | arr (xs : List Json)
  | obj (fields : List (String × Json))

/-- A persisted `localStorage` payload: either a document `JSON.parse`
accepts (abstracted by the value it parses to), or garbage it rejects. -/
inductive Payload where
  | json (j : Json)
  | garbage (s : String)

/-- `JSON.parse` at the payload level. -/
def jsonParse : Payload → Option Json
  | .json j => some j
  | .garbage _ => none

/-- Property access `obj[k]` on a parsed JSON value. -/
def Json.getField (j : Json) (k : String) : Option Json :=
  match j with
  | .obj fs => (fs.find? fun kv => kv.1 == k).map fun kv => kv.2
  | _ => none

def Json.asStr : Json → Option String
  | .str s => some s
  | _ => none

def Json.asBool : Json → Option Bool
  | .bool b => some b
  | _ => none

def Json.asNat : Json → Option Nat
  | .num n => some n.toNat
  | _ => none

def Json.asInt : Json → Option Int
  | .num n => some n
  | _ => none

def Json.asArr : Json → Option (List Json)
  | .arr xs => some xs
  | _ => none

/-- `JSON.stringify` drops object keys whose value is `undefined`; optional
fields are therefore encoded as key omission. -/
def optField (k : String) : Option Json → List (String × Json)
  | some j => [(k, j)]
  | none => []

def encodeStatus : EmpStatus → Json
  | .pending => .str "pending"
  | .active => .str "active"
  | .disabled => .str "disabled"

def decodeStatus : Json → Option EmpStatus
  | .str "pending" => some .pending
  | .str "active" => some .active
  | .str "disabled" => some .disabled
  | _ => none

def encodePunchType : PunchType → Json
  | .clockIn => .str "clock-in"
  | .clockOut => .str "clock-out"

def decodePunchType : Json → Option PunchType
  | .str "clock-in" => some .clockIn
  | .str "clock-out" => some .clockOut
  | _ => none

def encodeIdFactor : IdFactor → Json
  | .employeeId => .str "employeeId"
  | .fingerprint => .str "fingerprint"
  | .nfc => .str "nfc"
  | .qr => .str "qr"

def decodeIdFactor : Json → Option IdFactor
  | .str "employeeId" => some .employeeId
  | .str "fingerprint" => some .fingerprint
  | .str "nfc" => some .nfc
  | .str "qr" => some .qr
  | _ => none

def encodeBioFactor : BioFactor → Json
  | .strong => .str "strong"
  | .weak => .str "weak"
  | .simulated => .str "simulated"

def decodeBioFactor : Json → Option BioFactor
  | .str "strong" => some .strong
  | .str "weak" => some .weak
  | .str "simulated" => some .simulated
  | _ => none

def encodeFactors (f : Factors) : Json :=
  .obj [("identity", encodeIdFactor f.identity), ("biometric", encodeBioFactor f.biometric)]

def decodeFactors (j : Json) : Option Factors := do
  let identity ← (j.getField "identity").bind decodeIdFactor
  let biometric ← (j.getField "biometric").bind decodeBioFactor
  pure { identity := identity, biometric := biometric }

def encodeEmployee (e : Employee) : Json :=
  .obj ([("id", .str e.id), ("orgId", .str e.orgId), ("siteId", .str e.siteId),
         ("employeeId", .str e.employeeId), ("firstName", .str e.firstName),
         ("lastName", .str e.lastName)] ++
        optField "phone" (e.phone.map .str) ++
        optField "address" (e.address.map .str) ++
        [("status", encodeStatus e.status), ("createdAt", .str e.createdAt)] ++
        optField "profileSelfie" (e.profileSelfie.map .str))

def decodeEmployee (j : Json) : Option Employee := do
  let id ← (j.getField "id").bind Json.asStr
  let orgId ← (j.getField "orgId").bind Json.asStr
  let siteId ← (j.getField "siteId").bind Json.asStr
  let employeeId ← (j.getField "employeeId").bind Json.asStr
  let firstName ← (j.getField "firstName").bind Json.asStr
  let lastName ← (j.getField "lastName").bind Json.asStr
  let status ← (j.getField "status").bind decodeStatus
  let createdAt ← (j.getField "createdAt").bind Json.asStr
  pure { id := id, orgId := orgId, siteId := siteId, employeeId := employeeId,
         firstName := firstName, lastName := lastName,
         phone := (j.getField "phone").bind Json.asStr,
         address := (j.getField "address").bind Json.asStr,
         status := status, createdAt := createdAt,
         profileSelfie := (j.getField "profileSelfie").bind Json.asStr }

def encodeEvent (e : EventRecord) : Json :=
  .obj ([("id", .str e.id), ("orgId", .str e.orgId), ("siteId", .str e.siteId),
         ("deviceId", .str e.deviceId), ("employeeId", .str e.employeeId),
         ("type", encodePunchType e.type), ("ts", .num e.ts),
         ("factors", encodeFactors e.factors)] ++
        optField "selfieDataUrl" (e.selfieDataUrl.map .str) ++
        [("offlineSeq", .num (e.offlineSeq : Int)), ("synced", .bool e.synced)])

def decodeEvent (j : Json) : Option EventRecord := do
  let id ← (j.getField "id").bind Json.asStr
  let orgId ← (j.getField "orgId").bind Json.asStr
  let siteId ← (j.getField "siteId").bind Json.asStr
  let deviceId ← (j.getField "deviceId").bind Json.asStr
  let employeeId ← (j.getField "employeeId").bind Json.asStr
  let type ← (j.getField "type").bind decodePunchType
  let ts ← (j.getField "ts").bind Json.asInt
  let factors ← (j.getField "factors").bind decodeFactors
  let offlineSeq ← (j.getField "offlineSeq").bind Json.asNat
  let synced ← (j.getField "synced").bind Json.asBool
  pure { id := id, orgId := orgId, siteId := siteId, deviceId := deviceId,
         employeeId := employeeId, type := type, ts := ts, factors := factors,
         selfieDataUrl := (j.getField "selfieDataUrl").bind Json.asStr,
         offlineSeq := offlineSeq, synced := synced }

def encodeDevice (d : DeviceSettings) : Json :=
  .obj ([("enrolled", .bool d.enrolled), ("orgId", .str d.orgId),
         ("siteId", .str d.siteId), ("deviceId", .str d.deviceId),
         ("online", .bool d.online),
         ("selfieRetentionWeeks", .num (d.selfieRetentionWeeks : Int)),
         ("requireSelfie", .bool d.requireSelfie),
         ("requireStrongBiometric", .bool d.requireStrongBiometric)] ++
        optField "adminCodeHash" (d.adminCodeHash.map .str))

def decodeDevice (j : Json) : Option DeviceSettings := do
  let enrolled ← (j.getField "enrolled").bind Json.asBool
  let orgId ← (j.getField "orgId").bind Json.asStr
  let siteId ← (j.getField "siteId").bind Json.asStr
  let deviceId ← (j.getField "deviceId").bind Json.asStr
  let online ← (j.getField "online").bind Json.asBool
  let selfieRetentionWeeks ← (j.getField "selfieRetentionWeeks").bind Json.asNat
  let requireSelfie ← (j.getField "requireSelfie").bind Json.asBool
  let requireStrongBiometric ← (j.getField "requireStrongBiometric").bind Json.asBool
  pure { enrolled := enrolled, orgId := orgId, siteId := siteId, deviceId := deviceId,
         online := online, selfieRetentionWeeks := selfieRetentionWeeks,
         requireSelfie := requireSelfie, requireStrongBiometric := requireStrongBiometric,
         adminCodeHash := (j.getField "adminCodeHash").bind Json.asStr }

def encodeDB (db : DB) : Json :=
  .obj [("employees", .arr (db.employees.map encodeEmployee)),
        ("events", .arr (db.events.map encodeEvent)),
        ("device", encodeDevice db.device),
        ("pendingSeq", .num (db.pendingSeq : Int))]

/-- Decode every element of a JSON array; fail if any element fails. -/
def decodeList {α : Type} (dec : Json → Option α) : List Json → Option (List α)
  | [] => some []
  | x :: xs => (dec x).bind fun a => (decodeList dec xs).map fun l => a :: l

def decodeDB (j : Json) : Option DB := do
  let employees ← ((j.getField "employees").bind Json.asArr).bind
    (decodeList decodeEmployee)
  let events ← ((j.getField "events").bind Json.asArr).bind
    (decodeList decodeEvent)
  let device ← (j.getField "device").bind decodeDevice
  let pendingSeq ← (j.getField "pendingSeq").bind Json.asNat
  pure { employees := employees, events := events, device := device,
         pendingSeq := pendingSeq }

theorem decodeStatus_encodeStatus (s : EmpStatus) : decodeStatus (encodeStatus s) = some s := by
  cases s <;> rfl

theorem decodeFactors_encodeFactors (f : Factors) : decodeFactors (encodeFactors f) = some f := by
  cases f with
  | mk identity biometric => cases identity <;> cases biometric <;> rfl

theorem decodeEmployee_encodeEmployee (e : Employee) :
    decodeEmployee (encodeEmployee e) = some e := by
  cases e with
  | mk id orgId siteId employeeId firstName lastName phone address status createdAt ps =>
    cases phone <;> cases address <;> cases ps <;> cases status <;> rfl

theorem decodeEvent_encodeEvent (e : EventRecord) :
    decodeEvent (encodeEvent e) = some e := by
  cases e with
  | mk id orgId siteId deviceId employeeId type ts factors selfie offlineSeq synced =>
    cases factors with
    | mk identity biometric =>
      cases selfie <;> cases type <;> cases identity <;> cases biometric <;> rfl

theorem decodeDevice_encodeDevice (d : DeviceSettings) :
    decodeDevice (encodeDevice d) = some d := by
  cases d with
  | mk enrolled orgId siteId deviceId online weeks reqS reqB hash =>
    cases hash <;> rfl

theorem decodeList_map_of_roundtrip {α : Type} (enc : α → Json) (dec : Json → Option α)
    (h : ∀ a, dec (enc a) = some a) (l : List α) :
    decodeList dec (l.map enc) = some l := by
  induction l with
  | nil => rfl
  | cons a t ih => simp [decodeList, h, ih]

theorem decodeDB_encodeDB (db : DB) : decodeDB (encodeDB db) = some db := by
  cases db with
  | mk employees events device pendingSeq =>
    simp [decodeDB, encodeDB, Json.getField, Json.asArr, Json.asNat,
          decodeList_map_of_roundtrip _ _ decodeEmployee_encodeEmployee,
          decodeList_map_of_roundtrip _ _ decodeEvent_encodeEvent,
          decodeDevice_encodeDevice]

/-- Abstract model of the SHA-256 digest: an injective tag. No claim depends
on digest internals, only on which input produced the stored digest. -/
def sha256 (s : String) : String := "sha256-of-" ++ s

/-- The fixed default administrator code. -/
def DEFAULT_ADMIN_CODE : String := "246810"

/-- The freshly initialized aggregate exactly as `loadDB` synchronously
returns it on first run: `adminCodeHash` is `undefined` at this point — the
digest of the default code is computed by a fire-and-forget promise. -/
def initDB : DB :=
  { employees := [], events := [],
    device := { enrolled := true, orgId := "o", siteId := "s", deviceId := "d",
                online := true, selfieRetentionWeeks := 4, requireSelfie := true,
                requireStrongBiometric := true, adminCodeHash := none },
    pendingSeq := 1 }

/-- The fresh aggregate once the fire-and-forget digest computation resolves:
the returned object is mutated to carry the default code's digest and then
persisted. -/
def initDBHashed : DB :=
  { initDB with
    device := { initDB.device with adminCodeHash := some (sha256 DEFAULT_ADMIN_CODE) } }

/-- Result of `loadDB`: either a freshly (re)initialized aggregate, or the
parsed persisted document returned as-is, with no validation of its shape. -/
inductive LoadOutcome where
  | fresh (db : DB)
  | parsed (j : Json)

/-- `loadDB`: no stored document → fresh initialization (the async digest
write follows); a document `JSON.parse` accepts → returned as-is; a document
it rejects → the `try/catch` removes it and re-enters `loadDB` on the now
empty storage, i.e. the fresh-initialization path. -/
def loadDB (store : Option Payload) : LoadOutcome :=
  match store with
  | none => .fresh initDB
  | some p =>
    match jsonParse p with
    | some j => .parsed j
    | none => .fresh initDB

/-- `saveDB`: serialize the aggregate and overwrite the persisted copy. -/
def saveDB (db : DB) : Payload := .json (encodeDB db)

/-- C4 counterexample: on a fresh install, the aggregate `loadDB` returns has
`adminCodeHash = none` — the administrator passcode digest is *not* present
in the returned aggregate; it is only attached asynchronously afterwards. -/
theorem loadDB_fresh_digest_absent_counterexample :
    loadDB none = .fresh initDB ∧ initDB.device.adminCodeHash = none :=
  ⟨rfl, rfl⟩

/-- C4 amended: with no persisted document, `loadDB` returns the freshly
initialized aggregate with `employees = []`, `events = []`, `pendingSeq = 1`,
`enrolled = true`, a retention of 4 weeks, selfie and strong biometric
required, and `adminCodeHash` still absent; the digest of the fixed default
code `"246810"` is attached (and the document persisted) only when the
asynchronous hash computation completes. -/
theorem loadDB_fresh_init :
    loadDB none = .fresh initDB ∧
    initDB.employees = [] ∧ initDB.events = [] ∧ initDB.pendingSeq = 1 ∧
    initDB.device.enrolled = true ∧ initDB.device.selfieRetentionWeeks = 4 ∧
    initDB.device.requireSelfie = true ∧
    initDB.device.requireStrongBiometric = true ∧
    initDB.device.adminCodeHash = none ∧
    initDBHashed.device.adminCodeHash = some (sha256 DEFAULT_ADMIN_CODE) ∧
    initDBHashed.employees = initDB.employees ∧
    initDBHashed.events = initDB.events ∧
    initDBHashed.pendingSeq = initDB.pendingSeq :=
  ⟨rfl, rfl, rfl, rfl, rfl, rfl, rfl, rfl, rfl, rfl, rfl, rfl, rfl⟩

/-- C9: `loadDB` re-initializes exactly when the persisted payload fails to
parse as JSON (the garbage is discarded, no crash), and returns any payload
that parses as-is — for every JSON value, of any shape, with no validation
that it looks like an aggregate. -/
theorem loadDB_parse_boundary :
    (∀ s, loadDB (some (Payload.garbage s)) = .fresh initDB) ∧
    (∀ j, loadDB (some (Payload.json j)) = .parsed j) ∧
    loadDB none = .fresh initDB :=
  ⟨fun _ => rfl, fun _ => rfl, rfl⟩

/-- C5: round trip — saving an aggregate and loading it back yields a parsed
document that denotes exactly the saved aggregate (the hypothesis that the
aggregate holds no image older than the retention cutoff at save time, as in
the claim, is carried but the round trip does not depend on it: `saveDB`
and `loadDB` never purge). -/
theorem load_save_roundtrip (db : DB) (now : Int)
    (h : ∀ e ∈ db.events, e.selfieDataUrl.isSome = true →
        now - (db.device.selfieRetentionWeeks : Int) * 7 * 24 * 60 * 60 * 1000 ≤ e.ts) :
    loadDB (some (saveDB db)) = .parsed (encodeDB db) ∧
    decodeDB (encodeDB db) = some db :=
  ⟨rfl, decodeDB_encodeDB db⟩

/-- Witness for `load_save_roundtrip` at the fresh aggregate. -/
theorem load_save_roundtrip_witness :
    loadDB (some (saveDB initDB)) = .parsed (encodeDB initDB) ∧
    decodeDB (encodeDB initDB) = some initDB :=
  load_save_roundtrip initDB 0 (by intro e he; simp [initDB] at he)

/-- Hex digit character for JSON `\u` escapes (lowercase, as JS emits). -/
def hexDigit (n : Nat) : Char :=
  if n < 10 then Char.ofNat (48 + n) else Char.ofNat (87 + n)

/-- Four-digit hex rendering for JSON `\u` escapes. -/
def hex4 (n : Nat) : String :=
  String.mk [hexDigit (n / 4096 % 16), hexDigit (n / 256 % 16),
             hexDigit (n / 16 % 16), hexDigit (n % 16)]

/-- `JSON.stringify` escaping of one character inside a string literal. -/
def jsonEscapeChar (c : Char) : String :=
  if c = '"' then "\\\""
  else if c = '\\' then "\\\\"
  else if c = '\n' then "\\n"
  else if c = '\r' then "\\r"
  else if c = '\t' then "\\t"
  else if c = Char.ofNat 8 then "\\b"
  else if c = Char.ofNat 12 then "\\f"
  else if c.toNat < 32 then "\\u" ++ hex4 c.toNat
  else String.singleton c

/-- `JSON.stringify` applied to a string: a quoted, escaped string literal. -/
def jsonStringify (s : String) : String :=
  "\"" ++ String.join (s.data.map jsonEscapeChar) ++ "\""

/-- JS `Array.prototype.join`. -/
def jsJoin (sep : String) : List String → String
  | [] => ""
  | [x] => x
  | x :: y :: xs => x ++ sep ++ jsJoin sep (y :: xs)

/-- JS template rendering of the event type (`"clock-in"` / `"clock-out"`). -/
def punchTypeStr : PunchType → String
  | .clockIn => "clock-in"
  | .clockOut => "clock-out"

/-- JS rendering of the biometric strength. -/
def bioFactorStr : BioFactor → String
  | .strong => "strong"
  | .weak => "weak"
  | .simulated => "simulated"

/-- JS `String(b)`. -/
def boolStr : Bool → String
  | true => "true"
  | false => "false"

/-- The CSV header of `CSVExport` (the eight column names joined by `,`). -/
def csvHeader : String :=
  jsJoin "," ["eventId", "employeeName", "employeeBusinessId", "type", "timestamp",
              "synced", "biometric", "hasSelfie"]

/-- One CSV row (`CSVExport`): the employee is looked up by internal id, the
name is rendered through `JSON.stringify`, every other field is written raw,
and the fields are joined by `,`. The timestamp column renders the modelled
epoch-ms value. -/
def csvRow (employees : List Employee) (e : EventRecord) : String :=
  let emp := employees.find? fun x => x.id == e.employeeId
  let empName :=
    match emp with
    | some x => x.firstName ++ " " ++ x.lastName
    | none => ""
  let empBizId :=
    match emp with
    | some x => x.employeeId
    | none => ""
  jsJoin ","
    [e.id, jsonStringify empName, empBizId, punchTypeStr e.type, toString e.ts,
     boolStr e.synced, bioFactorStr e.factors.biometric, boolStr e.selfieDataUrl.isSome]

/-- The CSV document of `CSVExport`: header then one row per event in order,
joined by newlines. -/
def csvExport (events : List EventRecord) (employees : List Employee) : String :=
  jsJoin "\n" (csvHeader :: events.map (csvRow employees))

/-- The CSV export as the claim words it: same layout, but the employee name
is merely surrounded by double quotes, with no escaping applied inside it. -/
def csvRowClaim (employees : List Employee) (e : EventRecord) : String :=
  let emp := employees.find? fun x => x.id == e.employeeId
  let empName :=
    match emp with
    | some x => x.firstName ++ " " ++ x.lastName
    | none => ""
  let empBizId :=
    match emp with
    | some x => x.employeeId
    | none => ""
  jsJoin ","
    [e.id, "\"" ++ empName ++ "\"", empBizId, punchTypeStr e.type, toString e.ts,
     boolStr e.synced, bioFactorStr e.factors.biometric, boolStr e.selfieDataUrl.isSome]

/-- The claim's reading of the whole export (name field only quoted). -/
def csvExportClaim (events : List EventRecord) (employees : List Employee) : String :=
  jsJoin "\n" (csvHeader :: events.map (csvRowClaim employees))

/-- An employee whose name contains a double quote. -/
def empQuote : Employee :=
  { id := "iq", orgId := "o", siteId := "s", employeeId := "EQ",
    firstName := "A\"B", lastName := "C", phone := none, address := none,
    status := EmpStatus.active, createdAt := "t0", profileSelfie := none }

/-- An event recorded for `empQuote`. -/
def evQuote : EventRecord :=
  { id := "vq", orgId := "o", siteId := "s", deviceId := "d", employeeId := "iq",
    type := PunchType.clockIn, ts := 0,
    factors := { identity := IdFactor.employeeId, biometric := BioFactor.simulated },
    selfieDataUrl := none, offlineSeq := 1, synced := true }

/-- C10 counterexample: for a name containing a double quote the export does
not merely quote the name — `JSON.stringify` backslash-escapes the inner
quote, so the produced document differs from the claim's "quoted, no further
escaping" reading. -/
theorem csvExport_quote_escape_counterexample :
    csvExport [evQuote] [empQuote] ≠ csvExportClaim [evQuote] [empQuote] ∧
    csvRow [empQuote] evQuote =
      "vq,\"A\\\"B C\",EQ,clock-in,0,true,simulated,false" ∧
    csvRowClaim [empQuote] evQuote =
      "vq,\"A\"B C\",EQ,clock-in,0,true,simulated,false" := by
  refine ⟨?_, ?_, ?_⟩ <;> decide

/-- The amended export, written from the amended claim's words by explicit
recursion: the exact header literal, then for each event in order a newline
followed by its comma-delimited row, in which the employee name is rendered
as a JSON string literal (quoted, with backslash escapes for quotes,
backslashes and control characters) and every other field is written raw. -/
def csvRowAmended (employees : List Employee) (e : EventRecord) : String :=
  let emp := employees.find? fun x => x.id == e.employeeId
  let empName :=
    match emp with
    | some x => x.firstName ++ " " ++ x.lastName
    | none => ""
  let empBizId :=
    match emp with
    | some x => x.employeeId
    | none => ""
  e.id ++ "," ++ jsonStringify empName ++ "," ++ empBizId ++ "," ++
    punchTypeStr e.type ++ "," ++ toString e.ts ++ "," ++ boolStr e.synced ++ "," ++
    bioFactorStr e.factors.biometric ++ "," ++ boolStr e.selfieDataUrl.isSome

def csvRowsAmended (employees : List Employee) : List EventRecord → String
  | [] => ""
  | e :: rest => "\n" ++ csvRowAmended employees e ++ csvRowsAmended employees rest

def csvExportAmended (events : List EventRecord) (employees : List Employee) : String :=
  "eventId,employeeName,employeeBusinessId,type,timestamp,synced,biometric,hasSelfie" ++
    csvRowsAmended employees events

theorem jsJoin_cons_cons (sep x y : String) (xs : List String) :
    jsJoin sep (x :: y :: xs) = x ++ sep ++ jsJoin sep (y :: xs) := rfl

theorem csvRow_eq_amended (employees : List Employee) (e : EventRecord) :
    csvRow employees e = csvRowAmended employees e := by
  simp only [csvRow, csvRowAmended, jsJoin, String.append_assoc]

theorem csvExport_eq_amended_aux (employees : List Employee) (events : List EventRecord)
    (head : String) :
    jsJoin "\n" (head :: events.map (csvRow employees)) =
      head ++ csvRowsAmended employees events := by
  induction events generalizing head with
  | nil => simp [jsJoin, csvRowsAmended]
  | cons e rest ih =>
    rw [List.map_cons, jsJoin_cons_cons, String.append_assoc,
        ih (csvRow employees e), csvRowsAmended, csvRow_eq_amended, String.append_assoc]

/-- C10 amended: the CSV export is the exact header line followed, for each
event in order, by a newline and its comma-delimited row; the employee name
field is a JSON string literal (quoted and backslash-escaped), all other
fields raw. -/
theorem csvExport_amended (events : List EventRecord) (employees : List Employee) :
    csvExport events employees = csvExportAmended events employees := by
  rw [csvExport, csvExportAmended, csvExport_eq_amended_aux]
  rfl
